import Mathlib

/-!
Verification development for the stock-analysis pipeline (main.py, volces_chat.py).

The Python source is shallowly embedded: DataFrames become lists of rows,
float cells become rationals (`ℚ`), a missing/NaN cell becomes `Option.none`,
and code that can raise returns `Except PyErr`.  Wall-clock reads and network
calls are passed in as explicit parameters describing their outcome.
-/

namespace StockAnalysis

/-- Python exception classes that the embedded code can raise. -/
inductive PyErr where
  | keyError
  | valueError
  deriving DecidableEq, Repr

/- ------------------------------------------------------------------
   Small helpers shared across the embedding
   ------------------------------------------------------------------ -/

/-- Lookup in a Python dict modelled as an association list in insertion
order; the last write for a key wins, so we search the reversed list. -/
def dict_find {β : Type} (m : List (String × β)) (k : String) : Option β :=
  (m.reverse.find? (fun kv => kv.1 == k)).map (fun kv => kv.2)

/-- `dict.get(k, d)` on the same model. -/
def dict_getD {β : Type} (m : List (String × β)) (k : String) (d : β) : β :=
  (dict_find m k).getD d

/-- `leads p s` is true when the char list `p` is an initial segment of `s`
(used to model Python substring tests). -/
def leads : List Char → List Char → Bool
  | [], _ => true
  | _ :: _, [] => false
  | p :: ps, c :: cs => p == c && leads ps cs

/-- `has_sub pat hay` models Python `pat in hay` on char lists. -/
def has_sub (pat : List Char) : List Char → Bool
  | [] => leads pat []
  | c :: t => leads pat (c :: t) || has_sub pat t

/-- Python `kw in name` for strings. -/
def py_in (kw name : String) : Bool :=
  has_sub kw.data name.data

/-- Python `s.startswith(p)` for strings (used only in specifications). -/
def str_starts (p s : String) : Bool :=
  leads p.data s.data

/-- Drop leading and trailing whitespace from a char list. -/
def trimChars (l : List Char) : List Char :=
  ((l.dropWhile Char.isWhitespace).reverse.dropWhile Char.isWhitespace).reverse

/-- Python `s.strip()`. -/
def py_strip (s : String) : String :=
  String.mk (trimChars s.data)

/-- Python `s.zfill(n)` for unsigned strings (stock codes carry no sign). -/
def zfill (n : Nat) (s : String) : String :=
  if n ≤ s.length then s else String.mk (List.replicate (n - s.length) '0') ++ s

/-- Banker's rounding (round half to even), the behaviour of Python's
`round` and of pandas/numpy `.round`. -/
def round_half_even (x : ℚ) : ℤ :=
  let f : ℤ := Rat.floor x
  let r : ℚ := x - (f : ℚ)
  if r < 1 / 2 then f
  else if 1 / 2 < r then f + 1
  else if f % 2 = 0 then f else f + 1

/-- `round(x, 2)` / `Series.round(2)`. -/
def round2 (x : ℚ) : ℚ :=
  ((round_half_even (x * 100) : ℤ) : ℚ) / 100

/-- `np.clip(x, lo, hi)`. -/
def clip (x lo hi : ℚ) : ℚ :=
  min (max x lo) hi

/- ------------------------------------------------------------------
   C9 — `_normalize_flow_value` (main.py lines 67-80)
   ------------------------------------------------------------------ -/

/-- The possible shapes of a raw flow cell handed to the normalizer:
Python `None`, a value that `float`/`pd.to_numeric(errors="coerce")`
turns into NaN (unparseable or NaN itself), or a finite number. -/
inductive RawFlow where
  | pynone
  | nanLike
  | finite (q : ℚ)

/-- Embedding of `_normalize_flow_value`; the NaN result is `Option.none`. -/
def normalize_flow_value : RawFlow → Option ℚ
  | RawFlow.pynone => Option.none
  | RawFlow.nanLike => Option.none
  | RawFlow.finite q => if 1000000 < |q| then some (q / 100000000) else some q

/- ------------------------------------------------------------------
   C3 — `_safe_ak_call` (main.py lines 44-56)
   ------------------------------------------------------------------ -/

/-- One candidate upstream operation, as seen by `_safe_ak_call`:
`getattr(ak, name, None)` may be `None` (unregistered), the call may raise,
or it may return `None` or a DataFrame (here a list of rows). -/
inductive AkCandidate (α : Type) where
  | unregistered
  | raises
  | returns (df : Option (List α))

/-- Embedding of `_safe_ak_call`: try each candidate in order, return the
first non-`None` non-empty DataFrame, else an empty DataFrame. -/
def safe_ak_call {α : Type} : List (AkCandidate α) → List α
  | [] => []
  | c :: cs =>
    match c with
    | AkCandidate.unregistered => safe_ak_call cs
    | AkCandidate.raises => safe_ak_call cs
    | AkCandidate.returns Option.none => safe_ak_call cs
    | AkCandidate.returns (some df) => if df.isEmpty then safe_ak_call cs else df

/-- The result a candidate contributes when it is registered, does not
raise, and returns a non-empty DataFrame. -/
def ak_success {α : Type} : AkCandidate α → Option (List α)
  | AkCandidate.returns (some df) => if df.isEmpty then Option.none else some df
  | _ => Option.none

/- ------------------------------------------------------------------
   C6 — run-mode classification
   (`run_analysis` lines 1765-1782 and `_is_trade_day` lines 258-270)
   ------------------------------------------------------------------ -/

/-- The four run modes. -/
inductive RunMode where
  | LIVE_MORNING
  | MIDDAY_SUMMARY
  | LIVE_AFTERNOON
  | POST_MARKET
  deriving DecidableEq, Repr

/-- Outcome of fetching and parsing the trading calendar inside
`_is_trade_day`: any exception, an empty DataFrame, a missing date column,
or a successfully parsed list of trading dates (as day ordinals). -/
inductive CalendarOutcome where
  | failure
  | emptyCalendar
  | noDateCol
  | dates (ds : List Nat)

/-- Embedding of `_is_trade_day`: `None` on any failure, otherwise whether
today is in the parsed calendar. -/
def is_trade_day (cal : CalendarOutcome) (today : Nat) : Option Bool :=
  match cal with
  | CalendarOutcome.failure => Option.none
  | CalendarOutcome.emptyCalendar => Option.none
  | CalendarOutcome.noDateCol => Option.none
  | CalendarOutcome.dates ds => some (ds.contains today)

/-- Embedding of the head of `run_analysis`: trading-day resolution with the
weekday fallback, then the hour buckets.  `weekday` is 0 = Monday as in
Python. -/
def classify_run_mode (cal : CalendarOutcome) (today weekday hour : Nat) : RunMode :=
  let isTradingDay := (is_trade_day cal today).getD (decide (weekday < 5))
  if isTradingDay then
    if 9 ≤ hour ∧ hour < 12 then RunMode.LIVE_MORNING
    else if 12 ≤ hour ∧ hour < 13 then RunMode.MIDDAY_SUMMARY
    else if 13 ≤ hour ∧ hour < 15 then RunMode.LIVE_AFTERNOON
    else RunMode.POST_MARKET
  else RunMode.POST_MARKET

/- ------------------------------------------------------------------
   C7 — scoring (`comprehensive_scoring` lines 1286-1325 and
   `get_etf_sector_and_theme` lines 1327-1371)
   ------------------------------------------------------------------ -/

/-- The ordered `map_rules` table of `get_etf_sector_and_theme`
(Python dicts preserve insertion order). -/
def map_rules : List ((String × String) × List String) :=
  [ (("证券", "大金融"), ["证券", "券商"]),
    (("保险", "大金融"), ["保险"]),
    (("银行", "大金融"), ["银行"]),
    (("半导体", "科技/半导体"), ["半导体", "芯片"]),
    (("计算机", "科技/半导体"), ["计算机", "信创", "软件", "云计算", "AI", "人工智能"]),
    (("消费电子", "科技/半导体"), ["消费电子"]),
    (("通信设备", "科技/半导体"), ["5G", "通信"]),
    (("光学光电子", "科技/半导体"), ["光学"]),
    (("光伏设备", "大新能源"), ["光伏"]),
    (("电池", "大新能源"), ["电池", "锂电", "新能车", "电动车"]),
    (("电网设备", "大新能源"), ["电网", "特高压"]),
    (("食品饮料", "大消费"), ["食品", "饮料", "白酒", "消费"]),
    (("家电行业", "大消费"), ["家电"]),
    (("美容护理", "大消费"), ["医美", "美容"]),
    (("医药商业", "医疗健康"), ["医药"]),
    (("医疗服务", "医疗健康"), ["医疗"]),
    (("中药", "医疗健康"), ["中药"]),
    (("房地产开发", "房地产"), ["地产", "房地产"]),
    (("游戏", "传媒/游戏"), ["游戏"]),
    (("文化传媒", "传媒/游戏"), ["传媒", "影视"]),
    (("国防军工", "军工"), ["军工", "国防"]),
    (("煤炭行业", "周期/材料"), ["煤炭"]),
    (("有色金属", "周期/材料"), ["有色"]),
    (("钢铁行业", "周期/材料"), ["钢铁"]),
    (("化学原料", "周期/材料"), ["化工"]),
    (("工程机械", "高端制造"), ["机械", "制造"]),
    (("专用设备", "高端制造"), ["设备"]),
    (("物流行业", "交通运输"), ["运输", "物流", "航运", "港口"]),
    (("农牧饲渔", "大农业"), ["农业", "养殖", "畜牧"]) ]

/-- Keywords of the Hong-Kong pre-check in `get_etf_sector_and_theme`. -/
def hk_keywords : List String :=
  ["恒生", "H股", "港股", "中概", "互联网"]

/-- Embedding of `get_etf_sector_and_theme`: HK pre-check, then the first
matching keyword rule, else ("其他", "其他"). -/
def get_etf_sector_and_theme (etf_name : String) : String × String :=
  if hk_keywords.any (fun kw => py_in kw etf_name) then ("港股", "港股")
  else
    match map_rules.find? (fun rule => rule.2.any (fun kw => py_in kw etf_name)) with
    | some rule => rule.1
    | Option.none => ("其他", "其他")

/-- `heat_score = (heat_value - 50) / 15` from `comprehensive_scoring`.
The heat value read from the 热力值 column may be float NaN
(`Option.none`, see `HeatRow.heat`), and float arithmetic propagates it. -/
def heat_adjustment (heat : Option ℚ) : Option ℚ :=
  heat.map (fun h => (h - 50) / 15)

/-- `final_score = np.clip(base_score + heat_score, 0, 5)`; `np.clip` of
NaN is NaN, so a NaN adjustment propagates to the final score. -/
def final_score (base : ℚ) (heat : Option ℚ) : Option ℚ :=
  (heat_adjustment heat).map (fun adj => clip (base + adj) 0 5)

/-- `theme_to_heat.get(specific_sector, 50)`: the heat map is the dict
built from the sector-heat rows, whose 热力值 entries may be NaN; the
default for a missing sector is the number 50. -/
def theme_heat (m : List (String × Option ℚ)) (sector : String) : Option ℚ :=
  dict_getD m sector (some 50)

/- ------------------------------------------------------------------
   C4 / C5 — incremental daily history
   (`get_incremental_daily_data` lines 132-178)
   ------------------------------------------------------------------ -/

/-- `keyMem k l`: some row of `l` has date key `k`. -/
def keyMem {κ β : Type} [DecidableEq κ] (k : κ) (l : List (κ × β)) : Bool :=
  l.any (fun r => decide (r.1 = k))

/-- `DataFrame.drop_duplicates(subset=[date_col], keep="last")`: keep a row
iff no later row carries the same date key, preserving row order. -/
def drop_duplicates_last {κ β : Type} [DecidableEq κ] : List (κ × β) → List (κ × β)
  | [] => []
  | x :: xs =>
    if keyMem x.1 xs then drop_duplicates_last xs else x :: drop_duplicates_last xs

/-- The merge step of `get_incremental_daily_data`:
`pd.concat([df_base, df_new]).drop_duplicates(subset=[date_col], keep="last")`. -/
def merge_history {κ β : Type} [DecidableEq κ] (base delta : List (κ × β)) : List (κ × β) :=
  drop_duplicates_last (base ++ delta)

/-- Outcome of calling `data_func` (the delta / full fetch). -/
inductive FetchOutcome (Row : Type) where
  | raises
  | ok (delta : List Row)

/-- Embedding of `get_incremental_daily_data`.
`persisted` is the content of the `_base.pkl` file (`Option.none` if the
file does not exist), `startLeToday` is the comparison
`start_date <= today_str`, and `fetch` is the outcome of the single
`data_func` call made on that path.  Returns (returned table, new persisted
base). -/
def get_incremental_daily_data {κ β : Type} [DecidableEq κ]
    (persisted : Option (List (κ × β))) (startLeToday : Bool)
    (fetch : FetchOutcome (κ × β)) : List (κ × β) × Option (List (κ × β)) :=
  match persisted with
  | some base =>
    if startLeToday then
      match fetch with
      | FetchOutcome.raises => (base, some base)
      | FetchOutcome.ok delta =>
        if delta.isEmpty then (base, some base)
        else (merge_history base delta, some (merge_history base delta))
    else (base, some base)
  | Option.none =>
    match fetch with
    | FetchOutcome.raises => ([], Option.none)
    | FetchOutcome.ok full => (full, some full)

/- ------------------------------------------------------------------
   C2 — `cache_data` (main.py lines 94-129)
   ------------------------------------------------------------------ -/

/-- The two caches seen by `cache_data`: the in-process `_cache` dict and
the pickle files on disk, both keyed by the unique filename. -/
structure CacheState (Data : Type) where
  mem : List (String × Data)
  disk : List (String × Data)
  deriving DecidableEq

/-- Outcome of calling the producer `data_func`. -/
inductive ProducerOutcome (Data : Type) where
  | raises
  | ok (d : Data)

/-- The unique filename `f"{filename}_{params_str}_{time_str}.pkl"`;
`timeStr` is the hourly or daily bucket label. -/
def cache_key (filename paramsStr timeStr : String) : String :=
  filename ++ "_" ++ paramsStr ++ "_" ++ timeStr ++ ".pkl"

/-- Embedding of `cache_data`: memo hit, else disk hit (memoized), else run
the producer; on success persist and memoize, on failure return an empty
dataset leaving both caches untouched. -/
def cache_data {Data : Type} (key : String) (producer : ProducerOutcome Data)
    (emptyData : Data) (st : CacheState Data) : Data × CacheState Data :=
  match dict_find st.mem key with
  | some d => (d, st)
  | Option.none =>
    match dict_find st.disk key with
    | some d => (d, { st with mem := (key, d) :: st.mem })
    | Option.none =>
      match producer with
      | ProducerOutcome.ok d =>
        (d, { mem := (key, d) :: st.mem, disk := (key, d) :: st.disk })
      | ProducerOutcome.raises => (emptyData, st)

/- ------------------------------------------------------------------
   C8 — sector heat formula (`analyze_sector_strength` lines 1187-1210)
   ------------------------------------------------------------------ -/

/-- The pandas average rank of `v` within the non-NaN values `valid`,
divided by their count (`Series.rank(pct=True)`): ties share the mean of
their ordinal ranks. -/
def pct_rank_in (valid : List ℚ) (v : ℚ) : ℚ :=
  (((valid.countP (fun w => decide (w < v))) : ℚ)
      + (((valid.countP (fun w => decide (w = v))) : ℚ) + 1) / 2)
    / ((valid.length : ℚ))

/-- `Series.rank(pct=True)` over a column with NaN cells (`Option.none`):
NaN cells keep NaN, others get their percentile rank among non-NaN cells. -/
def rank_pct_col (xs : List (Option ℚ)) : List (Option ℚ) :=
  xs.map (fun x => x.map (fun v => pct_rank_in (xs.filterMap id) v))

/-- The `资金强度分` column: if the `主力净流入` column exists and has any
numeric cell, percentile rank × 100; otherwise the neutral 50 everywhere. -/
def fund_strength_col (hasFlowCol : Bool) (flows : List (Option ℚ)) : List (Option ℚ) :=
  if hasFlowCol then
    if flows.any (fun x => x.isSome) then
      (rank_pct_col flows).map (fun r => r.map (fun q => q * 100))
    else flows.map (fun _ => some 50)
  else flows.map (fun _ => some 50)

/-- The `热力值` column computed by the code: a sector row is
(量价齐升家数, 主力净流入 cell); heat is `(0.7 * 人气 + 0.3 * 资金).round(2)`,
NaN-propagating in the fund factor. -/
def heat_col (hasFlowCol : Bool) (rows : List (ℚ × Option ℚ)) : List (Option ℚ) :=
  List.zipWith
    (fun p f =>
      match p, f with
      | some pv, some fv => some (round2 (7 / 10 * pv + 3 / 10 * fv))
      | _, _ => Option.none)
    ((rank_pct_col (rows.map (fun r => some r.1))).map (fun r => r.map (fun q => q * 100)))
    (fund_strength_col hasFlowCol (rows.map (fun r => r.2)))

/-- The heat values as the specification words them: per sector,
`0.7 × (percentile rank of the co-rising count × 100) + 0.3 × fund-strength`,
rounded to 2 decimals, where fund-strength is the inflow percentile × 100
except that an absent or wholly non-numeric inflow column gives every
sector the neutral 50. -/
def heat_spec (hasFlowCol : Bool) (rows : List (ℚ × Option ℚ)) : List (Option ℚ) :=
  rows.map (fun r =>
    let pop := pct_rank_in (rows.map (fun r' => r'.1)) r.1 * 100
    if hasFlowCol && (rows.map (fun r' => r'.2)).any (fun f => f.isSome) then
      r.2.map (fun v =>
        round2 (7 / 10 * pop
          + 3 / 10 * (pct_rank_in ((rows.map (fun r' => r'.2)).filterMap id) v * 100)))
    else some (round2 (7 / 10 * pop + 3 / 10 * 50)))

/- ------------------------------------------------------------------
   C1 — analyzer isolation
   (`analyze_market_sentiment` lines 1077-1150,
    `analyze_sector_strength` lines 1152-1211, `run_analysis` 1786-1800)
   ------------------------------------------------------------------ -/

/-- The `limitup` slice of the shared result store; `{}` (an analyzer
failure) is `Option.none` at the outer level, and each `.get` key may be
absent. -/
structure LimitupRes where
  limit_up_count : Option ℚ
  limit_down_count : Option ℚ
  break_rate : Option ℚ
  streak_high : Option ℚ

/-- Reasons accumulated by the sentiment analyzer; constructors carry the
numbers interpolated into the Python f-strings. -/
inductive Reason where
  | profitStrong (q : ℚ)
  | profitGood (q : ℚ)
  | profitAvg (q : ℚ)
  | profitBad (q : ℚ)
  | limitUpActive (q : ℚ)
  | limitDownMany (q : ℚ)
  | streakHigh (q : ℚ)
  | breakRateHigh (q : ℚ)
  | congestionHigh (q : ℚ)
  | congestionLow (q : ℚ)

/-- Inputs read by `analyze_market_sentiment` from the shared stores:
the 赚钱效应 table as (item, value) rows, the 量价齐升 row count, the
`limitup` analyzer result, and the congestion column. -/
structure SentimentIn where
  market_activity : Option (List (String × ℚ))
  rank_ljqs_len : Nat
  limitup : Option LimitupRes
  congestion : Option (List ℚ)

/-- The dict written under `analysis_result["sentiment"]` on success. -/
structure SentimentResult where
  sentiment : String
  reasons : List Reason
  profit_effect : ℚ
  ljqs_count : Nat
  limit_up_count : ℚ
  limit_down_count : ℚ
  break_rate : Option ℚ
  streak_high : Option ℚ
  congestion : ℚ

/-- The `value` cells of the rows whose `item` is 上涨. -/
def up_values (rows : List (String × ℚ)) : List ℚ :=
  (rows.filter (fun r => r.1 == ("上涨" : String))).map (fun r => r.2)

/-- The `value` cells of the rows whose `item` is 下跌. -/
def down_values (rows : List (String × ℚ)) : List ℚ :=
  (rows.filter (fun r => r.1 == ("下跌" : String))).map (fun r => r.2)

/-- The success path of the sentiment analyzer once `up_count`, `down_count`
and the congestion figure are in hand (lines 1088-1146). -/
def mk_sentiment_result (inp : SentimentIn) (u d congestion : ℚ) : SentimentResult :=
  let profit_effect := if 0 < u + d then round2 (u / (u + d) * 100) else 50
  let limit_up_count := (inp.limitup.bind (fun l => l.limit_up_count)).getD 0
  let limit_down_count := (inp.limitup.bind (fun l => l.limit_down_count)).getD 0
  let break_rate := inp.limitup.bind (fun l => l.break_rate)
  let streak_high := inp.limitup.bind (fun l => l.streak_high)
  let base :=
    if 65 < profit_effect ∧ 80 < limit_up_count then
      (("贪婪" : String), [Reason.profitStrong profit_effect])
    else if 50 < profit_effect then (("乐观" : String), [Reason.profitGood profit_effect])
    else if 40 ≤ profit_effect ∧ profit_effect ≤ 50 then
      (("中性偏冷" : String), [Reason.profitAvg profit_effect])
    else if profit_effect < 40 then (("恐慌" : String), [Reason.profitBad profit_effect])
    else (("中性" : String), [])
  let reasons := base.2
    ++ (if 60 ≤ limit_up_count then [Reason.limitUpActive limit_up_count] else [])
    ++ (if 20 ≤ limit_down_count then [Reason.limitDownMany limit_down_count] else [])
    ++ (match streak_high with
        | some v => [Reason.streakHigh v]
        | Option.none => [])
    ++ (match break_rate with
        | some v => if 35 ≤ v then [Reason.breakRateHigh v] else []
        | Option.none => [])
    ++ (if 90 < congestion then [Reason.congestionHigh congestion]
        else if congestion < 20 then [Reason.congestionLow congestion] else [])
  { sentiment := base.1
    reasons := reasons
    profit_effect := profit_effect
    ljqs_count := inp.rank_ljqs_len
    limit_up_count := limit_up_count
    limit_down_count := limit_down_count
    break_rate := break_rate
    streak_high := streak_high
    congestion := congestion }

/-- The body of `analyze_market_sentiment` inside its `try`: each `raise
ValueError` becomes an error value. -/
def sentiment_body (inp : SentimentIn) : Except PyErr SentimentResult :=
  match inp.market_activity with
  | Option.none => Except.error PyErr.valueError
  | some rows =>
    if rows.isEmpty then Except.error PyErr.valueError
    else
      match up_values rows, down_values rows with
      | [], _ => Except.error PyErr.valueError
      | _ :: _, [] => Except.error PyErr.valueError
      | u :: _, d :: _ =>
        match inp.congestion with
        | Option.none => Except.error PyErr.valueError
        | some cs =>
          if h : cs = [] then Except.error PyErr.valueError
          else Except.ok (mk_sentiment_result inp u d (cs.getLast h * 100))

/-- `analyze_market_sentiment` with its boundary `except`: a failing body
writes the empty dict (`Option.none`) instead of propagating. -/
def analyze_market_sentiment (inp : SentimentIn) : Option SentimentResult :=
  match sentiment_body inp with
  | Except.ok r => some r
  | Except.error _ => Option.none

/-- The condition under which the sentiment body raises. -/
def sentiment_err (inp : SentimentIn) : Bool :=
  match inp.market_activity with
  | Option.none => true
  | some rows =>
    rows.isEmpty || (up_values rows).isEmpty || (down_values rows).isEmpty
      || (match inp.congestion with
          | Option.none => true
          | some cs => cs.isEmpty)

/-- The `rank_ljqs` DataFrame as `analyze_sector_strength` sees it: a row
count and the 股票代码 column if present (cells already `astype(str)`). -/
structure LjqsDF where
  nrows : Nat
  codeCol : Option (List String)

/-- One row of the renamed `industry_fund_flow` table: 板块名称 and the
主力净流入 cell after `pd.to_numeric(errors="coerce")` (`Option.none` =
NaN); the cell is only meaningful when the column exists. -/
structure IndustryRow where
  name : String
  flow : Option ℚ

/-- Inputs read by `analyze_sector_strength` from the shared stores. -/
structure SectorStrengthIn where
  industry_flow : Option (List IndustryRow)
  hasFlowCol : Bool
  ljqs : LjqsDF
  stockMap : List (String × String)

/-- One row of the `sector_heat_map` result table. -/
structure HeatRow where
  name : String
  flow : Option ℚ
  ljqs_count : ℚ
  fund_score : Option ℚ
  pop_score : Option ℚ
  heat : Option ℚ

/-- Descending order on heat with NaN last, the key order of
`sort_values(by="热力值", ascending=False)`. -/
def key_before (a b : Option ℚ) : Bool :=
  match a, b with
  | some x, some y => decide (y < x)
  | some _, Option.none => true
  | Option.none, _ => false

/-- Insertion step of the sort on heat rows. -/
def insert_row (r : HeatRow) : List HeatRow → List HeatRow
  | [] => [r]
  | x :: xs => if key_before r.heat x.heat then r :: x :: xs else x :: insert_row r xs

/-- `sort_values(by="热力值", ascending=False)` (insertion sort; pandas
leaves tie order unspecified). -/
def sort_rows : List HeatRow → List HeatRow
  | [] => []
  | x :: xs => insert_row x (sort_rows xs)

/-- The per-sector 量价齐升 counts: codes are zero-filled to 6 digits,
mapped through the stock→industry dict, grouped and counted per industry,
then left-joined onto the sector rows with missing counts filled with 0
(an absent group key is exactly a zero occurrence count). -/
def ljqs_counts_for (codes : List String) (stockMap : List (String × String))
    (rows : List IndustryRow) : List ℚ :=
  let industries := (codes.map (zfill 6)).map (fun c => dict_find stockMap c)
  rows.map (fun r => ((industries.countP (fun x => x == some r.name)) : ℚ))

/-- Embedding of `analyze_sector_strength`.  The function has no `try` of
its own: the early guard returns an empty heat map, but a `KeyError` raised
by `ljqs_df["股票代码"]` (non-empty ljqs table without that column, with a
non-empty stock→industry map) propagates to the caller. -/
def analyze_sector_strength (inp : SectorStrengthIn) : Except PyErr (List HeatRow) :=
  match inp.industry_flow with
  | Option.none => Except.ok []
  | some rows =>
    if rows.isEmpty then Except.ok []
    else
      match
        (if inp.ljqs.nrows ≠ 0 ∧ inp.stockMap ≠ [] then
          match inp.ljqs.codeCol with
          | some codes => Except.ok (ljqs_counts_for codes inp.stockMap rows)
          | Option.none => Except.error PyErr.keyError
        else Except.ok (rows.map (fun _ => (0 : ℚ)))) with
      | Except.error e => Except.error e
      | Except.ok counts =>
        let pairs := List.zipWith (fun (r : IndustryRow) (c : ℚ) => (c, r.flow)) rows counts
        let pops :=
          (rank_pct_col (pairs.map (fun p => some p.1))).map (fun r => r.map (fun q => q * 100))
        let funds := fund_strength_col inp.hasFlowCol (pairs.map (fun p => p.2))
        let heats := heat_col inp.hasFlowCol pairs
        let quad := List.zipWith
          (fun (rc : IndustryRow × ℚ) (fh : Option ℚ × (Option ℚ × Option ℚ)) =>
            HeatRow.mk rc.1.name rc.1.flow rc.2 fh.1 fh.2.1 fh.2.2)
          (rows.zip counts) (funds.zip (pops.zip heats))
        Except.ok (sort_rows quad)

/-- Is an `Except` a success? -/
def except_ok {ε α : Type} : Except ε α → Bool
  | Except.ok _ => true
  | Except.error _ => false

/-- Concrete input on which the sector-strength analyzer raises: a
non-empty industry-flow table, a non-empty ljqs table lacking the
股票代码 column, and a non-empty stock→industry map. -/
def sector_cx_input : SectorStrengthIn :=
  { industry_flow := some [{ name := ("银行" : String), flow := some 5 }]
    hasFlowCol := true
    ljqs := { nrows := 1, codeCol := Option.none }
    stockMap := [(("000001" : String), ("银行" : String))] }

/- ------------------------------------------------------------------
   C10 — `chat_volces` (volces_chat.py)
   ------------------------------------------------------------------ -/

/-- The hardcoded default API key of volces_chat.py. -/
def VOLCES_API_KEY : String := "fe1b0d9c-52a1-48ad-ba7d-caab97681998"

/-- The hardcoded default model name. -/
def MODEL : String := "deepseek-v3-2-251201"

/-- The default endpoint. -/
def ENDPOINT : String := "https://ark.cn-beijing.volces.com/api/v3/chat/completions"

/-- Python `a or b` where `a` is a possibly-`None`, possibly-empty string. -/
def py_or_str (a : Option String) (b : String) : String :=
  match a with
  | some s => if s = "" then b else s
  | Option.none => b

/-- The relevant environment variables (`None` = unset). -/
structure VolcesEnv where
  apiKey : Option String
  model : Option String
  endpoint : Option String
  botId : Option String

/-- `api_key or os.getenv("VOLCES_API_KEY") or VOLCES_API_KEY`. -/
def resolved_key (api_key : Option String) (env : VolcesEnv) : String :=
  py_or_str api_key (py_or_str env.apiKey VOLCES_API_KEY)

/-- `model or os.getenv("VOLCES_MODEL") or MODEL`. -/
def resolved_model (model : Option String) (env : VolcesEnv) : String :=
  py_or_str model (py_or_str env.model MODEL)

/-- Embedding of `_is_placeholder`: falsy (None/empty), or the stripped
value's character set is exactly x, literally or after lowercasing.
`Char.toLower` matches Python on the ASCII range used here. -/
def is_placeholder (v : Option String) : Bool :=
  match v with
  | Option.none => true
  | some s =>
    if s = "" then true
    else
      let t := (py_strip s).data
      (!t.isEmpty && t.all (fun c => c == 'x'))
        || (!(t.map Char.toLower).isEmpty && (t.map Char.toLower).all (fun c => c == 'x'))

/-- The predicate the claim states: the resolved value is empty or consists
solely of the character x (case-sensitive, no surrounding whitespace). -/
def spec_placeholder (s : String) : Bool :=
  s.data.all (fun c => c == 'x')

/-- Outcome of `resp.json()` plus the content extraction
`data["choices"][0]["message"]["content"]`: parsing may fail, or succeed
with a rendered form (used in error details) and an optional content
string (missing keys raise, caught as a parse failure). -/
inductive JsonRes where
  | fail
  | ok (rendered : String) (content : Option String)

/-- Outcome of `requests.post`: a transport exception without or with an
attached response, or an HTTP response with status, JSON outcome and text. -/
inductive NetOutcome where
  | requestErrorNoResp (emsg : String)
  | requestErrorResp (emsg : String) (detail : String)
  | response (status : Nat) (json : JsonRes) (text : String)

/-- The common prefix of every failure string of `chat_volces`. -/
def call_failed : String := "AI调用失败"

/-- The "not configured" sentinel returned when key or model is a
placeholder. -/
def not_configured_msg : String :=
  "AI调用未配置：未检测到有效的火山方舟鉴权信息。\n请设置环境变量：\n- VOLCES_API_KEY：你的火山方舟 API Key（Bearer token）\n- VOLCES_MODEL：你的模型名称（用于 /chat/completions）\n- VOLCES_ENDPOINT：可选；模型直连建议用 https://ark.cn-beijing.volces.com/api/v3/chat/completions\n- VOLCES_BOT_ID：可选；若使用 bots 接口通常需要提供 bot_id\n配置完成后重新运行即可生成该段AI内容。"

/-- Abstract rendering of the `requests` `HTTPError` message raised by
`raise_for_status` for a status not handled explicitly. -/
def http_err_str (status : Nat) : String :=
  "HTTPError " ++ toString status

/-- Embedding of `chat_volces`.  The payload construction (bots vs model
endpoint) does not influence the returned string and is omitted; the
`system`/`user` prompts only feed the payload.  An `IndexError` on an empty
`choices` list lands in the final generic handler with the same failure
prefix as the `KeyError` path modelled here. -/
def chat_volces (system user : String) (api_key model : Option String)
    (endpoint : String) (env : VolcesEnv) (net : NetOutcome) : String :=
  let rk := resolved_key api_key env
  let rm := resolved_model model env
  if is_placeholder (some rk) || is_placeholder (some rm) then not_configured_msg
  else
    match net with
    | NetOutcome.requestErrorNoResp e => call_failed ++ "：网络或请求异常：" ++ e
    | NetOutcome.requestErrorResp e d =>
      call_failed ++ "：网络或请求异常：" ++ e ++ " | 详情：" ++ d
    | NetOutcome.response status json text =>
      if status = 401 then
        call_failed ++ "：鉴权失败(401 Unauthorized)。\n请检查 VOLCES_API_KEY 是否正确、是否有权限访问该 bot/model，或 key 是否已过期。"
      else if status = 403 then
        call_failed ++ "：无权限(403 Forbidden)。\n请确认账号权限、bot/model 权限，以及 key 是否绑定了正确的项目/空间。"
      else if status = 400 then
        call_failed ++ "：请求参数错误(400 Bad Request)。\n服务端返回："
          ++ (match json with
              | JsonRes.ok r _ => r
              | JsonRes.fail => py_strip text)
          ++ "\n排查建议：\n- 若你传的是模型名（如 deepseek-xxx），请把 VOLCES_ENDPOINT 设为 `https://ark.cn-beijing.volces.com/api/v3/chat/completions`\n- 若你坚持用 bots 接口，请设置 VOLCES_BOT_ID 为你的 bot_id，并保持 endpoint 为 `/api/v3/bots/chat/completions`"
      else if 400 ≤ status then
        call_failed ++ "：网络或请求异常：" ++ http_err_str status ++ " | 详情："
          ++ (match json with
              | JsonRes.ok r _ => r
              | JsonRes.fail => py_strip text)
      else
        match json with
        | JsonRes.fail => call_failed ++ "：返回解析异常：JSONDecodeError"
        | JsonRes.ok _ (some c) => c
        | JsonRes.ok _ Option.none => call_failed ++ "：返回解析异常：KeyError"

/-- The content `chat_volces` would hand through unchanged: a below-400
response whose JSON parses and carries the content field. -/
def net_success : NetOutcome → Option String
  | NetOutcome.response status (JsonRes.ok _ (some c)) _ =>
    if status < 400 then some c else Option.none
  | _ => Option.none

/-- Environment with every variable unset. -/
def env_unset : VolcesEnv :=
  { apiKey := Option.none, model := Option.none
    endpoint := Option.none, botId := Option.none }

/-- A healthy concrete sentiment input: 60 rising, 40 falling, congestion
column present. -/
def wSentIn : SentimentIn :=
  { market_activity := some [(("上涨" : String), (60 : ℚ)), (("下跌" : String), (40 : ℚ))]
    rank_ljqs_len := 3
    limitup := Option.none
    congestion := some [(1 : ℚ) / 2] }

/-- A sector-strength input with a missing industry-flow table. -/
def wSecIn : SectorStrengthIn :=
  { industry_flow := Option.none
    hasFlowCol := false
    ljqs := { nrows := 0, codeCol := Option.none }
    stockMap := [] }

/- ==================================================================
   Theorems
   ================================================================== -/

/-- C9: a finite flow value with absolute value above 1e6 is scaled by
1e8, any other finite value passes through unchanged, and `None` or
NaN/unparseable input yields the NaN marker; the normalizer is a total
function and never raises. -/
theorem normalize_flow_value_spec (q : ℚ) :
    normalize_flow_value (RawFlow.finite q)
        = some (if 1000000 < |q| then q / 100000000 else q)
      ∧ normalize_flow_value RawFlow.pynone = Option.none
      ∧ normalize_flow_value RawFlow.nanLike = Option.none := by
  refine ⟨?_, rfl, rfl⟩
  by_cases h : 1000000 < |q| <;> simp [normalize_flow_value, h]

/-- C3: `_safe_ak_call` returns the result of the first candidate that is
registered, raises no exception and returns a non-empty dataset; when no
candidate qualifies it returns the empty dataset; being a total function
into datasets, it raises for no input. -/
theorem safe_ak_call_spec {α : Type} (cs : List (AkCandidate α)) :
    safe_ak_call cs = ((cs.filterMap ak_success).headD []) := by
  induction cs with
  | nil => rfl
  | cons c cs ih =>
    cases c with
    | unregistered => simpa [safe_ak_call, ak_success] using ih
    | raises => simpa [safe_ak_call, ak_success] using ih
    | returns df =>
      cases df with
      | none => simpa [safe_ak_call, ak_success] using ih
      | some l =>
        by_cases h : l.isEmpty <;>
          simp [safe_ak_call, ak_success, h, List.filterMap_cons, ih]

/-- C6: the run mode is POST_MARKET whenever the resolved trading-day flag
(calendar result, falling back to the weekday test when the calendar is
unavailable) is false; on a trading day the hour buckets [9,12), [12,13)
and [13,15) give LIVE_MORNING, MIDDAY_SUMMARY and LIVE_AFTERNOON, and any
other hour gives POST_MARKET. -/
theorem run_mode_classification (cal : CalendarOutcome) (today weekday hour : Nat) :
    classify_run_mode cal today weekday hour =
      if (is_trade_day cal today).getD (decide (weekday < 5)) = false then
        RunMode.POST_MARKET
      else if hour ∈ Finset.Ico 9 12 then RunMode.LIVE_MORNING
      else if hour ∈ Finset.Ico 12 13 then RunMode.MIDDAY_SUMMARY
      else if hour ∈ Finset.Ico 13 15 then RunMode.LIVE_AFTERNOON
      else RunMode.POST_MARKET := by
  unfold classify_run_mode
  cases h : (is_trade_day cal today).getD (decide (weekday < 5)) with
  | false => simp [h]
  | true =>
    by_cases h1 : 9 ≤ hour ∧ hour < 12 <;>
      by_cases h2 : 12 ≤ hour ∧ hour < 13 <;>
        by_cases h3 : 13 ≤ hour ∧ hour < 15 <;>
          simp [h, h1, h2, h3, Finset.mem_Ico] <;>
            first
              | rfl
              | rw [if_pos (show hour = 12 by omega)]
              | rw [if_neg (show ¬hour = 12 by omega)]

/-- The clip bounds: a clipped number always lies in [0,5]. -/
theorem clip_mem (x : ℚ) : 0 ≤ clip x 0 5 ∧ clip x 0 5 ≤ 5 :=
  ⟨le_min (le_max_right _ _) (by norm_num), min_le_right _ _⟩

/-- C7 counterexample: the sector heat map can carry a NaN 热力值 (a
partially-NaN inflow column, cf. `heat_col`); for an instrument whose
keyword-matched sector has such an entry, `theme_to_heat.get` returns the
NaN, the adjustment and `np.clip` propagate it, and the final score is NaN
— not a number in [0,5] — refuting "always in [0,5] for any heat value". -/
theorem comprehensive_scoring_counterexample :
    (get_etf_sector_and_theme ("银行ETF" : String)).1 = ("银行" : String)
      ∧ theme_heat [(("银行" : String), (Option.none : Option ℚ))] ("银行" : String)
          = Option.none
      ∧ final_score 3 (theme_heat [(("银行" : String), (Option.none : Option ℚ))]
          ("银行" : String)) = Option.none
      ∧ ¬∃ q : ℚ,
          final_score 3 (theme_heat [(("银行" : String), (Option.none : Option ℚ))]
            ("银行" : String)) = some q ∧ 0 ≤ q ∧ q ≤ 5 := by
  refine ⟨rfl, rfl, rfl, ?_⟩
  rintro ⟨q, hq, -⟩
  simp [theme_heat, dict_getD, dict_find, final_score, heat_adjustment] at hq

/-- C7 amended: the final score is the NaN-propagating
`clip(base + (heat - 50)/15, 0, 5)`: whenever the looked-up heat value is
a number the final score is a number in [0,5]; a keyword-matched sector
absent from the heat map (the unmatched case maps to 其他) takes the
neutral number 50, whose adjustment is zero, so the final score is
`clip(base, 0, 5)`; a NaN heat entry yields a NaN final score. -/
theorem comprehensive_scoring_amended (base : ℚ)
    (m : List (String × Option ℚ)) (name : String)
    (h : dict_find m (get_etf_sector_and_theme name).1 = Option.none) :
    (∀ hv : ℚ, final_score base (some hv)
          = some (clip (base + (hv - 50) / 15) 0 5)
        ∧ ∀ q ∈ final_score base (some hv), 0 ≤ q ∧ q ≤ 5)
      ∧ final_score base Option.none = Option.none
      ∧ theme_heat m (get_etf_sector_and_theme name).1 = some 50
      ∧ heat_adjustment (theme_heat m (get_etf_sector_and_theme name).1) = some 0
      ∧ final_score base (theme_heat m (get_etf_sector_and_theme name).1)
          = some (clip base 0 5) := by
  have h50 : theme_heat m (get_etf_sector_and_theme name).1 = some 50 := by
    simp [theme_heat, dict_getD, h]
  refine ⟨fun hv => ⟨rfl, ?_⟩, rfl, h50, ?_, ?_⟩
  · intro q hq
    have hq' : clip (base + (hv - 50) / 15) 0 5 = q := by
      simpa [final_score, heat_adjustment, eq_comm] using hq
    exact hq' ▸ clip_mem _
  · rw [h50]
    norm_num [heat_adjustment]
  · rw [h50]
    simp [final_score, heat_adjustment]

/-- Witness for the amended C7: base score 3, a concrete numeric heat 7, a
heat map without the matched sector, and a name matching no keyword rule. -/
theorem comprehensive_scoring_amended_witness :
    final_score 3 (some 7) = some (clip (3 + ((7 : ℚ) - 50) / 15) 0 5)
      ∧ theme_heat [(("金融股" : String), (some 80 : Option ℚ))]
          (get_etf_sector_and_theme ("测试" : String)).1 = some 50
      ∧ final_score 3 (theme_heat [(("金融股" : String), (some 80 : Option ℚ))]
          (get_etf_sector_and_theme ("测试" : String)).1)
        = some (clip 3 0 5) := by
  have h := comprehensive_scoring_amended 3
    [(("金融股" : String), (some 80 : Option ℚ))] ("测试" : String) (by rfl)
  exact ⟨(h.1 7).1, h.2.2.1, h.2.2.2.2⟩

/-- C5: with an existing base table, a delta fetch that raises or returns
an empty delta leaves `get_incremental_daily_data` returning the base
unmodified and the persisted base dataset unchanged. -/
theorem get_incremental_preserves_base {κ β : Type} [DecidableEq κ]
    (base : List (κ × β)) (startLeToday : Bool) (fetch : FetchOutcome (κ × β))
    (h : fetch = FetchOutcome.raises ∨ fetch = FetchOutcome.ok []) :
    get_incremental_daily_data (some base) startLeToday fetch = (base, some base) := by
  rcases h with h | h <;> subst h <;> cases startLeToday <;>
    simp [get_incremental_daily_data]

/-- Witness for C5: a concrete base with a raising delta fetch. -/
theorem get_incremental_preserves_base_witness :
    get_incremental_daily_data (some [((20240105 : ℕ), (7 : ℚ))]) true
        FetchOutcome.raises
      = ([(20240105, 7)], some [(20240105, 7)]) :=
  get_incremental_preserves_base _ _ _ (Or.inl rfl)

/-- C2 counterexample: with both caches empty, a raising producer makes
`cache_data` return the empty dataset but leaves the caches untouched, so
a second call for the same bucket key runs the producer again (here
successfully), contradicting "the empty result is cached and the producer
is not retried until the bucket rolls over". -/
theorem cache_data_failure_not_cached :
    (cache_data (cache_key ("market" : String) ("p" : String) ("2024010100" : String))
          ProducerOutcome.raises ([] : List ℚ) { mem := [], disk := [] })
        = ([], { mem := [], disk := [] })
      ∧ (cache_data (cache_key ("market" : String) ("p" : String) ("2024010100" : String))
          (ProducerOutcome.ok [(42 : ℚ)]) ([] : List ℚ)
          { mem := [], disk := [] }).1 = [(42 : ℚ)] := by
  exact ⟨rfl, rfl⟩

/-- C2 amended: when the bucket key is in neither the in-process memo nor
the on-disk cache and the producer raises, `cache_data` returns the empty
dataset without raising and leaves both caches exactly as they were (the
failure is not persisted or memoized, so the same bucket retries the
producer on the next call). -/
theorem cache_data_failure_returns_empty {Data : Type} (key : String)
    (emptyData : Data) (st : CacheState Data)
    (hm : dict_find st.mem key = Option.none)
    (hd : dict_find st.disk key = Option.none) :
    cache_data key ProducerOutcome.raises emptyData st = (emptyData, st) := by
  simp [cache_data, hm, hd]

/-- Witness for the amended C2 on concrete empty caches. -/
theorem cache_data_failure_returns_empty_witness :
    cache_data ("k_p_2024010100.pkl" : String) ProducerOutcome.raises
        ([] : List ℚ) { mem := [], disk := [] }
      = ([], { mem := [], disk := [] }) :=
  cache_data_failure_returns_empty _ _ _ rfl rfl

/-- Membership in the key column distributes over concatenation. -/
theorem keyMem_append {κ β : Type} [DecidableEq κ] (k : κ) (l m : List (κ × β)) :
    keyMem k (l ++ m) = (keyMem k l || keyMem k m) := by
  simp [keyMem, List.any_append]

/-- `keyMem` as an existential over rows. -/
theorem keyMem_iff {κ β : Type} [DecidableEq κ] (k : κ) (l : List (κ × β)) :
    keyMem k l = true ↔ ∃ r ∈ l, r.1 = k := by
  simp [keyMem, List.any_eq_true]

/-- De-duplication only keeps rows of the original table. -/
theorem mem_of_mem_ddl {κ β : Type} [DecidableEq κ] {r : κ × β}
    {l : List (κ × β)} (h : r ∈ drop_duplicates_last l) : r ∈ l := by
  induction l with
  | nil => simp [drop_duplicates_last] at h
  | cons x xs ih =>
    by_cases hx : keyMem x.1 xs
    · simp only [drop_duplicates_last, hx, if_true] at h
      exact List.mem_cons_of_mem _ (ih h)
    · simp only [drop_duplicates_last, hx, if_false] at h
      rcases List.mem_cons.mp h with h | h
      · exact h ▸ List.mem_cons_self _ _
      · exact List.mem_cons_of_mem _ (ih h)

/-- A key found after de-duplication was present before. -/
theorem keyMem_of_ddl {κ β : Type} [DecidableEq κ] {k : κ} {l : List (κ × β)}
    (h : keyMem k (drop_duplicates_last l) = true) : keyMem k l = true := by
  rcases (keyMem_iff k _).mp h with ⟨r, hr, hk⟩
  exact (keyMem_iff k l).mpr ⟨r, mem_of_mem_ddl hr, hk⟩

/-- Decomposition of de-duplication over concatenation: rows of the left
part survive iff their key does not reappear on the right, and the right
part is de-duplicated on its own. -/
theorem ddl_append {κ β : Type} [DecidableEq κ] (l m : List (κ × β)) :
    drop_duplicates_last (l ++ m)
      = (drop_duplicates_last l).filter (fun r => !keyMem r.1 m)
          ++ drop_duplicates_last m := by
  induction l with
  | nil => simp [drop_duplicates_last]
  | cons x xs ih =>
    cases h1 : keyMem x.1 xs <;> cases h2 : keyMem x.1 m <;>
      simp [drop_duplicates_last, keyMem_append, h1, h2, ih, List.filter_cons]

/-- De-duplication is idempotent on a single table. -/
theorem ddl_idem {κ β : Type} [DecidableEq κ] (l : List (κ × β)) :
    drop_duplicates_last (drop_duplicates_last l) = drop_duplicates_last l := by
  induction l with
  | nil => rfl
  | cons x xs ih =>
    by_cases h : keyMem x.1 xs
    · simp [drop_duplicates_last, h, ih]
    · have h' : keyMem x.1 (drop_duplicates_last xs) = false := by
        cases hc : keyMem x.1 (drop_duplicates_last xs)
        · rfl
        · exact absurd (keyMem_of_ddl hc) (by simp [h])
      simp [drop_duplicates_last, h, h', ih]

/-- Every row of a de-duplicated table has its key in that table, so the
survival filter for the same table keeps nothing. -/
theorem filter_ddl_self {κ β : Type} [DecidableEq κ] (l : List (κ × β)) :
    (drop_duplicates_last l).filter (fun r => !keyMem r.1 l) = [] := by
  refine List.filter_eq_nil_iff.mpr ?_
  intro r hr
  have : keyMem r.1 l = true := (keyMem_iff _ _).mpr ⟨r, mem_of_mem_ddl hr, rfl⟩
  simp [this]

/-- C4: the incremental-history merge (concatenation followed by date-keyed
de-duplication keeping the latest occurrence) is idempotent: merging the
same delta twice yields exactly the table obtained by merging it once. -/
theorem merge_history_idempotent {κ β : Type} [DecidableEq κ]
    (base delta : List (κ × β)) :
    merge_history (merge_history base delta) delta = merge_history base delta := by
  unfold merge_history
  rw [ddl_append (drop_duplicates_last (base ++ delta)) delta, ddl_idem,
    ddl_append base delta, List.filter_append, List.filter_filter]
  have hpp : (fun (r : κ × β) => !keyMem r.1 delta && !keyMem r.1 delta)
      = (fun r => !keyMem r.1 delta) := by
    funext r; cases keyMem r.1 delta <;> rfl
  rw [hpp, filter_ddl_self, List.append_nil, ← ddl_append base delta]

/-- Zipping two maps over the same list is a map of the combined function. -/
theorem zipWith_map_same {α β γ δ : Type} (f : β → γ → δ) (g : α → β) (h : α → γ)
    (l : List α) :
    List.zipWith f (l.map g) (l.map h) = l.map (fun x => f (g x) (h x)) := by
  induction l with
  | nil => rfl
  | cons x xs ih => simp [ih]

/-- Collapsing `filterMap id` over a column of present cells. -/
theorem filterMap_id_map_some {α β : Type} (f : α → β) (l : List α) :
    (l.map (fun x => some (f x))).filterMap id = l.map f := by
  induction l with
  | nil => rfl
  | cons x xs ih => simp [ih]

/-- The popularity rank column in closed form: every cell is present and
holds the percentile rank of the count among all counts. -/
theorem rank_pct_col_counts (rows : List (ℚ × Option ℚ)) :
    rank_pct_col (rows.map (fun r => some r.1))
      = rows.map (fun r => some (pct_rank_in (rows.map (fun r' => r'.1)) r.1)) := by
  simp [rank_pct_col, List.map_map, Function.comp,
    filterMap_id_map_some (fun r : ℚ × Option ℚ => r.1) rows]

/-- The flow rank column in closed form: NaN cells stay NaN, the others get
their percentile rank among the non-NaN flows. -/
theorem rank_pct_col_flows (rows : List (ℚ × Option ℚ)) :
    rank_pct_col (rows.map (fun r => r.2))
      = rows.map (fun r => r.2.map (fun v =>
          pct_rank_in ((rows.map (fun r' => r'.2)).filterMap id) v)) := by
  simp [rank_pct_col, List.map_map, Function.comp]

/-- C8: the computed 热力值 column equals, sector by sector, the claimed
formula `round2(0.7 × popularity-percentile × 100 + 0.3 × fund-strength)`,
with fund-strength the inflow percentile × 100 except that an absent or
wholly non-numeric inflow column gives every sector the neutral 50; the
computation is a pure function of its input, hence deterministic. -/
theorem sector_heat_formula (hasFlowCol : Bool) (rows : List (ℚ × Option ℚ)) :
    heat_col hasFlowCol rows = heat_spec hasFlowCol rows
      ∧ ∀ rows2, rows = rows2 →
          heat_col hasFlowCol rows = heat_col hasFlowCol rows2 := by
  constructor
  · cases hcol : hasFlowCol with
    | false =>
      have hfund : fund_strength_col false (rows.map (fun r => r.2))
          = rows.map (fun _ => some (50 : ℚ)) := by
        simp [fund_strength_col, List.map_map, Function.comp_def, List.map_const']
      have hspec : heat_spec false rows
          = rows.map (fun r => some (round2
              (7 / 10 * (pct_rank_in (rows.map (fun r' => r'.1)) r.1 * 100)
                + 3 / 10 * 50))) := by
        simp [heat_spec]
      rw [heat_col, hfund, hspec, rank_pct_col_counts, List.map_map, zipWith_map_same]
      refine List.map_congr_left ?_
      intro r _
      simp [Function.comp]
    | true =>
      cases hany : (rows.map (fun r => r.2)).any (fun f => f.isSome) with
      | false =>
        have hfund : fund_strength_col true (rows.map (fun r => r.2))
            = rows.map (fun _ => some (50 : ℚ)) := by
          simp [fund_strength_col, hany, List.map_map, Function.comp_def, List.map_const']
        have hspec : heat_spec true rows
            = rows.map (fun r => some (round2
                (7 / 10 * (pct_rank_in (rows.map (fun r' => r'.1)) r.1 * 100)
                  + 3 / 10 * 50))) := by
          simp [heat_spec, hany]
        rw [heat_col, hfund, hspec, rank_pct_col_counts, List.map_map, zipWith_map_same]
        refine List.map_congr_left ?_
        intro r _
        simp [Function.comp]
      | true =>
        have hfund : fund_strength_col true (rows.map (fun r => r.2))
            = rows.map (fun r => r.2.map (fun v =>
                pct_rank_in ((rows.map (fun r' => r'.2)).filterMap id) v * 100)) := by
          simp [fund_strength_col, hany, rank_pct_col_flows, List.map_map,
            Function.comp, Option.map_map]
          try
            intro a b _
            cases b <;> rfl
        have hspec : heat_spec true rows
            = rows.map (fun r => r.2.map (fun v => round2
                (7 / 10 * (pct_rank_in (rows.map (fun r' => r'.1)) r.1 * 100)
                  + 3 / 10
                    * (pct_rank_in ((rows.map (fun r' => r'.2)).filterMap id) v
                        * 100)))) := by
          simp [heat_spec, hany]
        rw [heat_col, hfund, hspec, rank_pct_col_counts, List.map_map, zipWith_map_same]
        refine List.map_congr_left ?_
        intro r _
        cases hr : r.2 <;> simp [Function.comp, hr]
  · intro rows2 h
    rw [h]

/-- Witness for C8 at a concrete two-sector table (one NaN inflow cell),
discharging the determinism hypothesis with the reflexive input. -/
theorem sector_heat_formula_witness :
    heat_col true [((3 : ℚ), some 10), ((1 : ℚ), Option.none)]
        = heat_spec true [((3 : ℚ), some 10), ((1 : ℚ), Option.none)]
      ∧ heat_col true [((3 : ℚ), some 10), ((1 : ℚ), Option.none)]
        = heat_col true [((3 : ℚ), some 10), ((1 : ℚ), Option.none)] :=
  ⟨(sector_heat_formula true _).1, (sector_heat_formula true _).2 _ rfl⟩

/-- The sentiment body raises exactly under `sentiment_err`: a missing or
empty activity table, a missing 上涨 or 下跌 row, or a missing/empty
congestion table. -/
theorem sentiment_body_classified (inp : SentimentIn) :
    (sentiment_err inp = true → sentiment_body inp = Except.error PyErr.valueError)
      ∧ (sentiment_err inp = false → ∃ r, sentiment_body inp = Except.ok r) := by
  unfold sentiment_err sentiment_body
  cases hma : inp.market_activity with
  | none => exact ⟨fun _ => rfl, fun h => by simp at h⟩
  | some rows =>
    cases hre : rows.isEmpty with
    | true => exact ⟨fun _ => by simp [hre], fun h => by simp [hre] at h⟩
    | false =>
      cases hu : up_values rows with
      | nil => exact ⟨fun _ => by simp [hre, hu], fun h => by simp [hre, hu] at h⟩
      | cons u us =>
        cases hd : down_values rows with
        | nil =>
          exact ⟨fun _ => by simp [hre, hu, hd], fun h => by simp [hre, hu, hd] at h⟩
        | cons d ds =>
          cases hc : inp.congestion with
          | none =>
            exact ⟨fun _ => by simp [hre, hu, hd], fun h => by simp [hre, hu, hd] at h⟩
          | some cs =>
            cases cs with
            | nil =>
              exact ⟨fun _ => by simp [hre, hu, hd], fun h => by simp [hre, hu, hd] at h⟩
            | cons c cs' =>
              refine ⟨fun h => by simp [hre, hu, hd] at h,
                fun _ => ⟨mk_sentiment_result inp u d
                  ((c :: cs').getLast (by simp) * 100), ?_⟩⟩
              simp [hre, hu, hd]

/-- C1 counterexample: on a concrete input (non-empty industry-flow table,
non-empty ljqs table lacking the 股票代码 column, non-empty stock→industry
map) the sector-strength analyzer raises a KeyError that is not caught at
its boundary, so the exception propagates to `run_analysis` instead of an
empty result being written — refuting "every analyzer catches any
exception at its boundary". -/
theorem analyzer_isolation_counterexample :
    analyze_sector_strength sector_cx_input = Except.error PyErr.keyError := rfl

/-- C1 amended: the sentiment analyzer (like the other wrapped analyzers)
never propagates — a failing body writes the empty result and a healthy
body writes a populated one — while the sector-strength analyzer only
guards the missing/empty-input case (writing an empty heat map) and is
exception-free merely on inputs that never reach the unguarded
`ljqs_df[股票代码]` access. -/
theorem analyzer_isolation_amended (sIn : SentimentIn) (qIn : SectorStrengthIn)
    (hq : qIn.industry_flow = Option.none ∨ qIn.industry_flow = some []) :
    (sentiment_err sIn = true → analyze_market_sentiment sIn = Option.none)
      ∧ (sentiment_err sIn = false → (analyze_market_sentiment sIn).isSome = true)
      ∧ analyze_sector_strength qIn = Except.ok []
      ∧ ∀ rIn : SectorStrengthIn,
          (rIn.ljqs.codeCol.isSome = true ∨ rIn.ljqs.nrows = 0 ∨ rIn.stockMap = []) →
            except_ok (analyze_sector_strength rIn) = true := by
  refine ⟨?_, ?_, ?_, ?_⟩
  · intro h
    have herr := (sentiment_body_classified sIn).1 h
    simp [analyze_market_sentiment, herr]
  · intro h
    obtain ⟨r, hr⟩ := (sentiment_body_classified sIn).2 h
    simp [analyze_market_sentiment, hr]
  · rcases hq with h | h <;> simp [analyze_sector_strength, h]
  · intro rIn hr
    unfold analyze_sector_strength
    cases hif : rIn.industry_flow with
    | none => rfl
    | some rows =>
      cases hrows : rows.isEmpty with
      | true => simp [hrows, except_ok]
      | false =>
        by_cases hcond : rIn.ljqs.nrows ≠ 0 ∧ rIn.stockMap ≠ []
        · have hcode : ∃ codes, rIn.ljqs.codeCol = some codes := by
            rcases hr with hc | h0 | hm
            · cases hcc : rIn.ljqs.codeCol with
              | none => rw [hcc] at hc; simp at hc
              | some codes => exact ⟨codes, rfl⟩
            · exact absurd h0 hcond.1
            · exact absurd hm hcond.2
          obtain ⟨codes, hcodes⟩ := hcode
          simp [hrows, hcond, hcodes, except_ok]
        · simp [hrows, hcond, except_ok]

/-- Witness for the amended C1: concrete healthy sentiment input and a
concrete missing-table sector input. -/
theorem analyzer_isolation_witness :
    sentiment_err wSentIn = false
      ∧ (analyze_market_sentiment wSentIn).isSome = true
      ∧ analyze_sector_strength wSecIn = Except.ok [] := by
  have h := analyzer_isolation_amended wSentIn wSecIn (Or.inl rfl)
  exact ⟨rfl, h.2.1 rfl, h.2.2.1⟩

/-- A char list is an initial segment of itself followed by anything. -/
theorem leads_refl_append (l t : List Char) : leads l (l ++ t) = true := by
  induction l with
  | nil => rfl
  | cons c cs ih => simp [leads, ih]

/-- `str_starts` holds on a string extended to the right. -/
theorem str_starts_append (p t : String) : str_starts p (p ++ t) = true := by
  cases p with
  | mk pd =>
    cases t with
    | mk td =>
      show leads pd (pd ++ td) = true
      exact leads_refl_append pd td

/-- C10 counterexample: calling `chat_volces` with the model name X yields
the "not configured" sentinel although the resolved model name is neither
empty nor composed solely of the character x (lowercase): the placeholder
test also accepts uppercase X and stripped whitespace, so "exactly when
empty or solely x" does not hold as stated. -/
theorem chat_volces_counterexample :
    chat_volces ("s" : String) ("u" : String) Option.none (some ("X" : String))
        ENDPOINT env_unset
        (NetOutcome.response 200 (JsonRes.ok ("j" : String) (some ("hello" : String)))
          ("t" : String))
      = not_configured_msg
      ∧ resolved_model (some ("X" : String)) env_unset = ("X" : String)
      ∧ spec_placeholder (resolved_model (some ("X" : String)) env_unset) = false
      ∧ spec_placeholder (resolved_key Option.none env_unset) = false := by
  exact ⟨rfl, rfl, rfl, rfl⟩

/-- C10 amended: `chat_volces` is a total function into strings (it never
raises); it returns the "not configured" sentinel whenever the resolved key
or model is a placeholder — `None`/empty or, after stripping surrounding
whitespace, consisting solely of x/X characters — and otherwise it hands
through the upstream content on a successful below-400 response and returns
a string starting with the AI调用失败 failure prefix on every transport,
HTTP-status or response-parsing failure. -/
theorem chat_volces_failures_classified (system user : String)
    (api_key model : Option String) (endpoint : String) (env : VolcesEnv)
    (net : NetOutcome) :
    ((is_placeholder (some (resolved_key api_key env))
          || is_placeholder (some (resolved_model model env))) = true →
        chat_volces system user api_key model endpoint env net = not_configured_msg)
      ∧ ((is_placeholder (some (resolved_key api_key env))
          || is_placeholder (some (resolved_model model env))) = false →
        (∀ c, net_success net = some c →
            chat_volces system user api_key model endpoint env net = c)
          ∧ (net_success net = Option.none →
            str_starts call_failed
              (chat_volces system user api_key model endpoint env net) = true)) := by
  constructor
  · intro h
    simp [chat_volces, h]
  · intro h
    constructor
    · intro c hc
      cases net with
      | requestErrorNoResp e => simp [net_success] at hc
      | requestErrorResp e d => simp [net_success] at hc
      | response status json text =>
        cases json with
        | fail => simp [net_success] at hc
        | ok r content =>
          cases content with
          | none => simp [net_success] at hc
          | some c' =>
            by_cases hs : status < 400
            · simp only [net_success, if_pos hs] at hc
              have h1 : ¬status = 401 := by omega
              have h2 : ¬status = 403 := by omega
              have h3 : ¬status = 400 := by omega
              have h4 : ¬400 ≤ status := by omega
              simp [chat_volces, h, h1, h2, h3, h4]
              exact (Option.some.injEq _ _ ▸ hc).symm ▸ rfl
            · simp [net_success, hs] at hc
    · intro hn
      cases net with
      | requestErrorNoResp e =>
        simp [chat_volces, h, String.append_assoc, str_starts_append]
      | requestErrorResp e d =>
        simp [chat_volces, h, String.append_assoc, str_starts_append]
      | response status json text =>
        by_cases h1 : status = 401
        · simp [chat_volces, h, h1, String.append_assoc, str_starts_append]
        · by_cases h2 : status = 403
          · simp [chat_volces, h, h1, h2, String.append_assoc, str_starts_append]
          · by_cases h3 : status = 400
            · simp [chat_volces, h, h1, h2, h3, String.append_assoc,
                str_starts_append]
            · by_cases h4 : 400 ≤ status
              · simp [chat_volces, h, h1, h2, h3, h4, String.append_assoc,
                  str_starts_append]
              · cases json with
                | fail =>
                  simp [chat_volces, h, h1, h2, h3, h4, String.append_assoc,
                    str_starts_append]
                | ok r content =>
                  cases content with
                  | none =>
                    simp [chat_volces, h, h1, h2, h3, h4, String.append_assoc,
                      str_starts_append]
                  | some c' =>
                    have hs : status < 400 := by omega
                    simp [net_success, hs] at hn

/-- Witness for the amended C10: the unset environment resolves to the
hardcoded defaults (no placeholder), and a transport failure produces a
string carrying the failure prefix. -/
theorem chat_volces_failures_classified_witness :
    (is_placeholder (some (resolved_key Option.none env_unset))
        || is_placeholder (some (resolved_model Option.none env_unset))) = false
      ∧ str_starts call_failed
          (chat_volces ("s" : String) ("u" : String) Option.none Option.none
            ENDPOINT env_unset (NetOutcome.requestErrorNoResp ("boom" : String)))
          = true := by
  have h := chat_volces_failures_classified ("s" : String) ("u" : String)
    Option.none Option.none ENDPOINT env_unset
    (NetOutcome.requestErrorNoResp ("boom" : String))
  exact ⟨rfl, (h.2 rfl).2 rfl⟩

end StockAnalysis
